import Mathlib

/-!
Shallow embedding of the `explain-commit` tool (Go) and proofs of the
specification claims.

The repository has three stages: a Commit Reader (`internal/git/git.go`,
`GetLatestCommit`), a readiness check and server bootstrap
(`internal/llm/client.go`, `IsRunning`, `waitForServer`, `StartLMStudio`),
and an Explanation Client (`internal/llm/client.go`, `ExplainCommit`)
driven by `main` (the current entry point using the internal packages).

External effects (subprocesses, HTTP, the environment) are passed in as
explicit oracle arguments, so every embedded function is a pure, executable
Lean function mirroring the Go control flow line by line.
-/

namespace ExplainCommitRepo

/-- Drops every trailing occurrence of `c` from `s`; embeds Go
`strings.TrimRight(s, "/")` for the single-character cutset used in the
source. -/
def trimRightChar (s : String) (c : Char) : String :=
  String.mk ((s.data.reverse.dropWhile (fun d => d == c)).reverse)

/-- Embeds Go `strings.TrimSpace`: removes leading and trailing Unicode
whitespace.  Defined structurally over the character list so that it
evaluates on concrete inputs. -/
def trimSpace (s : String) : String :=
  String.mk (((s.data.dropWhile Char.isWhitespace).reverse.dropWhile
    Char.isWhitespace).reverse)

/-- Embeds `chatMessage` from `internal/llm/client.go`. -/
structure chatMessage where
  role : String
  content : String
deriving DecidableEq, Repr

/-- Embeds `chatRequest` from `internal/llm/client.go`.  The Go field
`Temperature float64` is modelled as an exact rational: every temperature
the program ever computes is produced by decimal parsing, which the
embedding keeps exact. -/
structure chatRequest where
  model : String
  messages : List chatMessage
  temperature : ℚ
deriving DecidableEq, Repr

/-- Embeds `chatChoice` from `internal/llm/client.go`. -/
structure chatChoice where
  message : chatMessage
deriving DecidableEq, Repr

/-- Embeds `chatResponse` from `internal/llm/client.go`. -/
structure chatResponse where
  choices : List chatChoice
deriving DecidableEq, Repr

/-- Error produced by the Commit Reader (`fmt.Errorf` values in
`internal/git/git.go`): the spec calls both cases `ExecutionError`. -/
inductive GitError where
  | executionError (msg : String)
deriving DecidableEq, Repr

/-- Embeds `GetLatestCommit` from `internal/git/git.go` lines 11-23.
The subprocess run of `git show --stat --patch HEAD` is an oracle:
`.error e` models a non-zero exit of the tool (with `e` the wrapped
message), `.ok out` models captured standard output. -/
def GetLatestCommit (gitShow : Except String String) : Except GitError String :=
  match gitShow with
  | .error e => .error (.executionError ("failed to run git show: " ++ e))
  | .ok out =>
      let commitText := trimSpace out
      if commitText = "" then
        .error (.executionError "empty git show output")
      else
        .ok commitText

/-- Embeds the constant `defaultBaseURL` from `internal/llm/client.go`. -/
def defaultBaseURL : String := "http://localhost:1234/v1"

/-- Embeds the constant `defaultModel` from `internal/llm/client.go`. -/
def defaultModel : String := "qwen/qwen3-4b-2507"

/-- Embeds the constant `defaultAPIKey` from `internal/llm/client.go`. -/
def defaultAPIKey : String := "lm-studio"

/-- The URL probed by `IsRunning`: `strings.TrimRight(baseURL, "/") + "/models"`. -/
def modelsEndpoint (baseURL : String) : String :=
  trimRightChar baseURL '/' ++ "/models"

/-- Embeds `IsRunning` from `internal/llm/client.go` lines 42-54.
`net` is the HTTP oracle: `net url = none` models any network error or
the 5-second client timeout; `net url = some st` models a response with
status code `st`.  The Go function returns a plain `bool` and propagates
no error, which the embedding reflects by being a total `Bool` function. -/
def IsRunning (net : String → Option Nat) (baseURL : String) : Bool :=
  let b := if baseURL = "" then defaultBaseURL else baseURL
  match net (modelsEndpoint b) with
  | none => false
  | some status => status == 200

/-- Numeric value of a digit list, most significant first. -/
def digitsToNat (l : List Char) : Nat :=
  l.foldl (fun n c => 10 * n + (c.toNat - 48)) 0

/-- Embeds Go `strconv.ParseFloat(s, 64)` on the decimal literal forms
`[+-]digits[.digits][(e|E)[+-]digits]` (at least one mantissa digit),
which covers every temperature override the program distinguishes.  The
result is the exactly represented decimal value; special forms such as
`inf`, `NaN`, hex floats and underscore separators are outside the
scope of the claims and are rejected here. -/
def parseGoFloat (s : String) : Option ℚ :=
  let cs := s.data
  let signed : ℚ × List Char :=
    match cs with
    | '+' :: r => (1, r)
    | '-' :: r => (-1, r)
    | r => (1, r)
  let sgn := signed.1
  let body := signed.2
  let mant := body.takeWhile (fun c => !(c == 'e' || c == 'E'))
  let expPart := body.dropWhile (fun c => !(c == 'e' || c == 'E'))
  let ip := mant.takeWhile Char.isDigit
  let rest := mant.dropWhile Char.isDigit
  let frac? : Option (List Char) :=
    match rest with
    | [] => some []
    | '.' :: fp => if fp.all Char.isDigit then some fp else none
    | _ => none
  match frac? with
  | none => none
  | some fp =>
      if ip.isEmpty && fp.isEmpty then none
      else
        let mval : ℚ := sgn * (digitsToNat (ip ++ fp) : ℚ) / 10 ^ fp.length
        match expPart with
        | [] => some mval
        | _ :: er =>
            let esigned : Bool × List Char :=
              match er with
              | '+' :: r => (false, r)
              | '-' :: r => (true, r)
              | r => (false, r)
            let eds := esigned.2
            if eds.isEmpty || !eds.all Char.isDigit then none
            else if esigned.1 then some (mval / 10 ^ digitsToNat eds)
            else some (mval * 10 ^ digitsToNat eds)

/-- Embeds the temperature resolution in `ExplainCommit`
(`internal/llm/client.go` lines 165-170): start from `0.2`, and when
`EXPLAIN_TEMPERATURE` is set to a non-empty string that parses as a
float, use the parsed value; otherwise keep the default.  `env` models
`os.Getenv`, whose result is the empty string for an unset variable. -/
def resolveTemp (env : String → String) : ℚ :=
  let tStr := env "EXPLAIN_TEMPERATURE"
  if tStr = "" then 1 / 5
  else
    match parseGoFloat tStr with
    | some t => t
    | none => 1 / 5

/-- The four configuration values the Explanation Client sends with a
request: base URL, model identifier, API key, sampling temperature. -/
structure Config where
  baseURL : String
  model : String
  apiKey : String
  temperature : ℚ
deriving DecidableEq, Repr

/-- Embeds the configuration resolution of `ExplainCommit` in
`internal/llm/client.go` lines 156-170: `baseURL`, `model` and `apiKey`
are assigned the package constants, and only the temperature consults the
environment. -/
def resolveConfig (env : String → String) : Config :=
  { baseURL := defaultBaseURL
    model := defaultModel
    apiKey := defaultAPIKey
    temperature := resolveTemp env }

/-- Embeds the configuration resolution of the legacy `explainCommit` in
`main.go` lines 54-74: the model identifier is required (`LMSTUDIO_MODEL`
unset is an error, there is no default), base URL and API key fall back to
hardcoded defaults, temperature as in `resolveTemp`. -/
def explainCommitMainConfig (env : String → String) : Except String Config :=
  let model := env "LMSTUDIO_MODEL"
  if model = "" then .error "LMSTUDIO_MODEL is not set"
  else
    let baseURL := if env "LMSTUDIO_BASE_URL" = "" then "http://localhost:1234/v1"
      else env "LMSTUDIO_BASE_URL"
    let apiKey := if env "LMSTUDIO_API_KEY" = "" then "lm-studio"
      else env "LMSTUDIO_API_KEY"
    .ok { baseURL := baseURL, model := model, apiKey := apiKey,
          temperature := resolveTemp env }

/-- Embeds the `systemPrompt` string of `ExplainCommit`
(`internal/llm/client.go` lines 172-181): `strings.TrimSpace` applied to
the raw literal, i.e. the literal without its surrounding newlines.  The
source file stores the en dash of the range 1-3 as the mis-encoded byte
sequence reproduced here verbatim. -/
def systemPromptText : String :=
  "You are a senior software engineer explaining a Git commit to a teammate.\n\nRules:\n- Give a short high-level summary first (1â€“3 bullet points).\n- Then describe the main code changes grouped by concern (e.g. \"API\", \"UI\", \"tests\").\n- Explain WHY the changes might have been made (best-effort inference).\n- Keep it concise but clear. No more than about 20 lines total."

/-- Embeds the `userPrompt` of `ExplainCommit` (`internal/llm/client.go`
lines 183-189): `fmt.Sprintf` of the trimmed template with the commit
text substituted for the single `%s` verb. -/
def userPrompt (commitText : String) : String :=
  "Here is the latest commit on the current branch:\n\n" ++ commitText ++
    "\n\nExplain this commit following the rules."

/-- Embeds the `reqBody` construction of `ExplainCommit`
(`internal/llm/client.go` lines 191-198): a two-message payload, system
instruction first, then the user message embedding the commit text. -/
def buildChatRequest (cfg : Config) (commitText : String) : chatRequest :=
  { model := cfg.model
    messages := [{ role := "system", content := systemPromptText },
                 { role := "user", content := userPrompt commitText }]
    temperature := cfg.temperature }

/-- The error values `ExplainCommit`, `StartLMStudio` and `waitForServer`
produce (`fmt.Errorf` in `internal/llm/client.go`), named by the taxonomy
of spec section 7. -/
inductive LlmError where
  | transportError (msg : String)
  | apiError (status : Nat) (body : String)
  | decodeError (msg : String)
  | emptyResponseError (msg : String)
  | timeoutError (msg : String)
  | cliUnavailable (msg : String)
  | startFailed (msg : String)
  | loadFailed (msg : String)
  | startManually (msg : String)
deriving DecidableEq, Repr

/-- Embeds the decoded-response handling of `ExplainCommit`
(`internal/llm/client.go` lines 231-236): an empty `choices` list or an
empty first-choice content is rejected, otherwise the content of the
first choice is returned trimmed of surrounding whitespace. -/
def extractContent (chatResp : chatResponse) : Except LlmError String :=
  match chatResp.choices with
  | [] => .error (.emptyResponseError "invalid response: missing choices[0].message.content")
  | c :: _ =>
      if c.message.content = "" then
        .error (.emptyResponseError "invalid response: missing choices[0].message.content")
      else
        .ok (trimSpace c.message.content)

/-- The per-poll timeout bound of `StartLMStudio`: `30 * time.Second`
passed to `waitForServer`; with the 1-second sleep between probes this is
30 readiness polls. -/
def readyTimeoutPolls : Nat := 30

/-- Embeds the loop of `waitForServer` (`internal/llm/client.go` lines
103-114): `reachable k` is the `IsRunning` oracle at the k-th poll; `fuel`
counts the polls that still fit before the deadline.  Returns `.ok` at the
first reachable poll and the timeout error once the deadline passes. -/
def waitForServerAux (reachable : Nat → Bool) (baseURL : String) :
    Nat → Nat → Except LlmError Unit
  | _, 0 => .error (.timeoutError ("timed out waiting for LM Studio server at " ++ baseURL))
  | k, fuel + 1 =>
      if reachable k then .ok () else waitForServerAux reachable baseURL (k + 1) fuel

/-- Embeds `waitForServer` (`internal/llm/client.go` lines 103-114): the
Go loop checks `IsRunning` once per second while `time.Now` is before
`deadline = now + timeout`, so a 30-second timeout yields 30 polls. -/
def waitForServer (reachable : Nat → Bool) (baseURL : String) (timeoutPolls : Nat) :
    Except LlmError Unit :=
  waitForServerAux reachable baseURL 0 timeoutPolls

/-- Oracle for the external world `StartLMStudio` consults
(`internal/llm/client.go` lines 118-152): the initial `IsRunning` probe,
availability of the `lms` CLI, whether `lms ps` lists the model at the
moment it is queried, success and combined output of `lms server start`
and `lms load`, and the reachability trace observed by `waitForServer`
after a start. -/
structure BootstrapEnv where
  serverRunning : Bool
  cliAvailable : Bool
  modelLoaded : Bool
  startOk : Bool
  startOutput : String
  loadOk : Bool
  loadOutput : String
  reachableAfter : Nat → Bool

/-- The process-launching behaviour of a bootstrap run: whether it issued
no start command, a headless `lms server start`, or launched a GUI
application process (an executable plus arguments).  The current
`StartLMStudio` only ever produces the first two; `guiLaunch` exists so
that claims about GUI launching can be stated. -/
inductive StartAction where
  | noAction
  | headlessCLI
  | guiLaunch (exe : String) (args : List String)
deriving DecidableEq, Repr

/-- Embeds `StartLMStudio` (`internal/llm/client.go` lines 118-152),
returning the start action it performed together with its result.  If the
server is running it only (when the CLI is available) ensures the model is
loaded; if not running it starts headlessly via the CLI when available and
waits for readiness, and otherwise fails asking the user to install the
CLI or start the server manually.  The progress `fmt.Println` calls are
not modelled. -/
def StartLMStudio (env : BootstrapEnv) : StartAction × Except LlmError Unit :=
  if env.serverRunning then
    if env.cliAvailable && !env.modelLoaded then
      (.noAction,
        if env.loadOk then .ok ()
        else .error (.loadFailed ("failed to load model: " ++ env.loadOutput)))
    else
      (.noAction, .ok ())
  else if env.cliAvailable then
    if env.startOk then
      (.headlessCLI,
        match waitForServer env.reachableAfter defaultBaseURL readyTimeoutPolls with
        | .error e => .error e
        | .ok _ =>
            if env.modelLoaded then .ok ()
            else if env.loadOk then .ok ()
            else .error (.loadFailed ("failed to load model: " ++ env.loadOutput)))
    else
      (.headlessCLI, .error (.startFailed ("failed to start server: " ++ env.startOutput)))
  else
    (.noAction, .error (.cliUnavailable
      "LM Studio is not running and `lms` CLI is not available; please install LM Studio CLI or start the server manually"))

/-- Embeds the launch-command selection of the superseded `StartLMStudio`
variant (the older revision kept alongside `internal/git/git.go`, lines
81-133 of that file): a non-empty `LM_STUDIO_CMD` environment value is
split into fields and used as the command; otherwise the platform decides
— `open -a "LM Studio"` on darwin, the `lmstudio` executable elsewhere,
and on windows an explicit start-it-manually error.  Returns the
executable and arguments of the GUI or custom process that revision would
launch. -/
def legacyLaunchCommand (goos envCmd : String) : Except LlmError (String × List String) :=
  let trimmed := trimSpace envCmd
  if trimmed ≠ "" then
    match (trimmed.split Char.isWhitespace).filter (fun w => !(w == "")) with
    | [] => .error (.startFailed "LM_STUDIO_CMD is set but empty")
    | exe :: rest => .ok (exe, rest)
  else
    match goos with
    | "darwin" => .ok ("open", ["-a", "LM Studio"])
    | "windows" => .error (.startManually
        "LM Studio is not running; start it manually on Windows")
    | _ => .ok ("lmstudio", [])

/-- The URL `ExplainCommit` posts to:
`strings.TrimRight(baseURL, "/") + "/chat/completions"`. -/
def chatCompletionsEndpoint (baseURL : String) : String :=
  trimRightChar baseURL '/' ++ "/chat/completions"

/-- Outcome of the HTTP POST in `ExplainCommit`: `netError` models a
failed `client.Do` (network failure or the 60-second timeout); `response`
carries the status code, raw body, and the result of JSON-decoding the
body into `chatResponse` (`none` models a decoder error). -/
inductive HttpOutcome where
  | netError (msg : String)
  | response (status : Nat) (body : String) (decoded : Option chatResponse)

/-- Embeds `ExplainCommit` (`internal/llm/client.go` lines 154-236):
bootstrap first, then resolve configuration, build the two-message
payload, POST it (the `http` oracle receives the request that is sent to
`chatCompletionsEndpoint` of the configured base URL), and handle the
response: non-200 status is an API error with status and body, a decoder
failure is a decode error, and the decoded body goes through
`extractContent`. -/
def ExplainCommit (benv : BootstrapEnv) (env : String → String)
    (http : chatRequest → HttpOutcome) (commitText : String) :
    Except LlmError String :=
  match (StartLMStudio benv).2 with
  | .error e => .error e
  | .ok _ =>
      let cfg := resolveConfig env
      let req := buildChatRequest cfg commitText
      match http req with
      | .netError m => .error (.transportError ("API request failed: " ++ m))
      | .response status body decoded =>
          if status ≠ 200 then .error (.apiError status body)
          else
            match decoded with
            | none => .error (.decodeError "failed to decode response")
            | some chatResp => extractContent chatResp

/-- The usage text `main` prints for `--help` / `-h`. -/
def usageText : String :=
  "explain-commit - explain the latest Git commit using LM Studio\n\nUsage:\n  explain-commit [--raw]\n\nOptions:\n  --raw   Print the raw git show output and exit"

/-- The banner `main` prints before reading the commit. -/
def readingMsg : String := "🔍 Reading latest commit (git show HEAD)..."

/-- The banner `main` prints before the raw commit text in `--raw` mode. -/
def rawBanner : String := "----- RAW COMMIT -----"

/-- The confirmation line `main` prints in the explain path; Go `len` on a
string counts bytes. -/
def gotMsg (commitText : String) : String :=
  "✓ Got commit (" ++ toString commitText.utf8ByteSize ++ " characters)"

/-- The banner `main` prints before calling the Explanation Client. -/
def askingMsg : String := "🧠 Asking LM Studio to explain the commit..."

/-- The header `main` prints before the explanation. -/
def explanationHeader : String := "\n📄 Explanation:"

/-- One observable step of `main`.  `callExplain` marks the single entry
into `llm.ExplainCommit`, inside which all network activity of the run
(readiness probe, server bootstrap, chat POST) takes place; `fatalGit` and
`fatalLlm` model `log.Fatalf`, which logs the error and exits with code
1. -/
inductive MainStep where
  | printLine (s : String)
  | callExplain (commitText : String)
  | fatalGit (e : GitError)
  | fatalLlm (e : LlmError)
deriving DecidableEq, Repr

/-- Embeds `main` of the current entry point (the `package main` file that
wires `internal/git` and `internal/llm` together): returns the ordered
list of observable steps and the process exit code.  `args` is `os.Args`
(program name at index 0). -/
def mainRun (args : List String) (gitShow : Except String String)
    (benv : BootstrapEnv) (env : String → String)
    (http : chatRequest → HttpOutcome) : List MainStep × Nat :=
  if args.get? 1 == some "--help" || args.get? 1 == some "-h" then
    ([.printLine usageText], 0)
  else
    match GetLatestCommit gitShow with
    | .error e => ([.printLine readingMsg, .fatalGit e], 1)
    | .ok commitText =>
        if args.get? 1 == some "--raw" then
          ([.printLine readingMsg, .printLine rawBanner, .printLine commitText], 0)
        else
          match ExplainCommit benv env http commitText with
          | .error e =>
              ([.printLine readingMsg, .printLine (gotMsg commitText),
                .printLine askingMsg, .callExplain commitText, .fatalLlm e], 1)
          | .ok explanation =>
              ([.printLine readingMsg, .printLine (gotMsg commitText),
                .printLine askingMsg, .callExplain commitText,
                .printLine explanationHeader, .printLine explanation], 0)

/-- C4: for every subprocess output of the version-control tool, if the
output is non-empty after trimming, `GetLatestCommit` returns it trimmed
of leading and trailing whitespace; if the tool exits non-zero or the
output is empty or whitespace-only, it fails with an `ExecutionError`. -/
theorem getLatestCommit_spec (out e : String) :
    (trimSpace out ≠ "" → GetLatestCommit (.ok out) = .ok (trimSpace out)) ∧
    (trimSpace out = "" →
      GetLatestCommit (.ok out) = .error (.executionError "empty git show output")) ∧
    GetLatestCommit (.error e) =
      .error (.executionError ("failed to run git show: " ++ e)) := by
  refine ⟨fun h => ?_, fun h => ?_, ?_⟩
  · simp [GetLatestCommit, h]
  · simp [GetLatestCommit, h]
  · simp [GetLatestCommit]

/-- Witness for `getLatestCommit_spec` at concrete subprocess outcomes. -/
theorem getLatestCommit_spec_witness :
    (trimSpace "  commit abc\n" ≠ "" ∧
      GetLatestCommit (.ok "  commit abc\n") = .ok "commit abc") ∧
    (trimSpace "  \n " = "" ∧
      GetLatestCommit (.ok "  \n ") = .error (.executionError "empty git show output")) ∧
    GetLatestCommit (.error "exit status 128") =
      .error (.executionError "failed to run git show: exit status 128") :=
  ⟨⟨by decide, (getLatestCommit_spec "  commit abc\n" "exit status 128").1 (by decide)⟩,
   ⟨by decide, (getLatestCommit_spec "  \n " "exit status 128").2.1 (by decide)⟩,
   (getLatestCommit_spec "  \n " "exit status 128").2.2⟩

/-- C7: for every non-empty base URL, the readiness check returns `true`
if and only if the GET probe of `{baseURL}/models` answers with HTTP 200
within the timeout; a network error or timeout (`net _ = none`) or any
non-200 status gives `false`.  The embedded `IsRunning` is a total `Bool`
function, mirroring that the Go function never raises. -/
theorem isRunning_iff_probe_200 (net : String → Option Nat) (baseURL : String)
    (h : baseURL ≠ "") :
    IsRunning net baseURL = true ↔ net (modelsEndpoint baseURL) = some 200 := by
  simp only [IsRunning, if_neg h]
  cases hn : net (modelsEndpoint baseURL) with
  | none => simp [hn]
  | some status => simp [hn]

/-- Oracle answering HTTP 200 on every URL. -/
def netAllOk : String → Option Nat := fun _ => some 200

/-- Witness for `isRunning_iff_probe_200` at the default base URL. -/
theorem isRunning_iff_probe_200_witness :
    defaultBaseURL ≠ "" ∧
      (IsRunning netAllOk defaultBaseURL = true ↔
        netAllOk (modelsEndpoint defaultBaseURL) = some 200) :=
  ⟨by decide, isRunning_iff_probe_200 netAllOk defaultBaseURL (by decide)⟩

/-- C10: calling `IsRunning` with an empty base URL substitutes the
hardcoded default base URL before probing, so it behaves exactly like
calling it with `defaultBaseURL`, for every network oracle. -/
theorem isRunning_empty_baseURL (net : String → Option Nat) :
    IsRunning net "" = IsRunning net defaultBaseURL := by
  simp [IsRunning, defaultBaseURL]

/-- C5: for every configuration and commit text, the chat payload built
by `ExplainCommit` has exactly two messages, a system message followed by
a user message, and the user message embeds the commit text verbatim (as
a substring, witnessed by an explicit prefix and suffix). -/
theorem explainCommit_payload_messages (cfg : Config) (commitText : String) :
    (buildChatRequest cfg commitText).messages.length = 2 ∧
    ∃ pre post,
      (buildChatRequest cfg commitText).messages =
        [{ role := "system", content := systemPromptText },
         { role := "user", content := pre ++ commitText ++ post }] :=
  ⟨rfl,
   "Here is the latest commit on the current branch:\n\n",
   "\n\nExplain this commit following the rules.", rfl⟩

/-- C6: for every HTTP 200 response whose body decodes to a single choice
with non-empty content `X`, `ExplainCommit` returns exactly `X` trimmed of
surrounding whitespace; a 200 response with an empty choices list or an
empty first-choice content fails with the `EmptyResponseError`. -/
theorem explainCommit_response_cases (benv : BootstrapEnv) (env : String → String)
    (http : chatRequest → HttpOutcome) (commitText X r body : String)
    (hboot : (StartLMStudio benv).2 = .ok ()) :
    (http (buildChatRequest (resolveConfig env) commitText) =
        .response 200 body (some ⟨[⟨⟨r, X⟩⟩]⟩) → X ≠ "" →
      ExplainCommit benv env http commitText = .ok (trimSpace X)) ∧
    (http (buildChatRequest (resolveConfig env) commitText) =
        .response 200 body (some ⟨[]⟩) →
      ExplainCommit benv env http commitText =
        .error (.emptyResponseError "invalid response: missing choices[0].message.content")) ∧
    (http (buildChatRequest (resolveConfig env) commitText) =
        .response 200 body (some ⟨[⟨⟨r, ""⟩⟩]⟩) →
      ExplainCommit benv env http commitText =
        .error (.emptyResponseError "invalid response: missing choices[0].message.content")) := by
  refine ⟨fun hh hX => ?_, fun hh => ?_, fun hh => ?_⟩
  · simp [ExplainCommit, hboot, hh, extractContent, hX]
  · simp [ExplainCommit, hboot, hh, extractContent]
  · simp [ExplainCommit, hboot, hh, extractContent]

/-- Bootstrap oracle with the server already reachable and no CLI. -/
def benvRunning : BootstrapEnv :=
  { serverRunning := true, cliAvailable := false, modelLoaded := false,
    startOk := false, startOutput := "", loadOk := false, loadOutput := "",
    reachableAfter := fun _ => false }

/-- Environment oracle with every variable unset. -/
def envEmpty : String → String := fun _ => ""

/-- Concrete decoded chat response with one whitespace-padded choice. -/
def respHello : chatResponse := ⟨[⟨⟨"assistant", " hello "⟩⟩]⟩

/-- HTTP oracle answering 200 with `respHello` to every request. -/
def httpOkHello : chatRequest → HttpOutcome :=
  fun _ => .response 200 "raw" (some respHello)

/-- Witness for `explainCommit_response_cases` on a concrete response. -/
theorem explainCommit_response_cases_witness :
    (StartLMStudio benvRunning).2 = .ok () ∧
    httpOkHello (buildChatRequest (resolveConfig envEmpty) "c1") =
      .response 200 "raw" (some respHello) ∧
    " hello " ≠ "" ∧
    ExplainCommit benvRunning envEmpty httpOkHello "c1" = .ok (trimSpace " hello ") :=
  ⟨rfl, rfl, by decide,
   (explainCommit_response_cases benvRunning envEmpty httpOkHello
     "c1" " hello " "assistant" "raw" rfl).1 rfl (by decide)⟩

/-- Environment oracle setting only `EXPLAIN_TEMPERATURE=0.7`. -/
def envTemp07 : String → String :=
  fun k => if k = "EXPLAIN_TEMPERATURE" then "0.7" else ""

/-- Environment oracle setting `EXPLAIN_TEMPERATURE` to an unparseable
value. -/
def envTempBad : String → String :=
  fun k => if k = "EXPLAIN_TEMPERATURE" then "not-a-float" else ""

/-- C9: with `EXPLAIN_TEMPERATURE=0.7` the temperature field of the
outgoing payload equals 0.7 (the exact decimal value 7/10), and with an
unparseable value it falls back to the default 0.2 (the exact decimal
value 1/5). -/
theorem explainCommit_temperature_payload :
    (buildChatRequest (resolveConfig envTemp07) "c").temperature = 7 / 10 ∧
    (buildChatRequest (resolveConfig envTempBad) "c").temperature = 1 / 5 := by
  constructor
  · simp [buildChatRequest, resolveConfig, resolveTemp, envTemp07,
      parseGoFloat, digitsToNat]
  · simp [buildChatRequest, resolveConfig, resolveTemp, envTempBad,
      parseGoFloat, digitsToNat]

/-- Environment oracle overriding base URL, model and API key with the
variables named by the legacy `main.go` code. -/
def envOverrides : String → String := fun k =>
  if k = "LMSTUDIO_BASE_URL" then "http://althost:9999/v1"
  else if k = "LMSTUDIO_MODEL" then "other-model"
  else if k = "LMSTUDIO_API_KEY" then "other-key"
  else ""

/-- C1 counterexample: with `LMSTUDIO_BASE_URL`, `LMSTUDIO_MODEL` and
`LMSTUDIO_API_KEY` all set, the configuration resolved by the current
`ExplainCommit` still carries the three hardcoded defaults, so base URL,
model identifier and API key are not overridable by environment
variables. -/
theorem explainCommit_env_override_counterexample :
    envOverrides "LMSTUDIO_BASE_URL" = "http://althost:9999/v1" ∧
    (resolveConfig envOverrides).baseURL = "http://localhost:1234/v1" ∧
    ¬(resolveConfig envOverrides).baseURL = "http://althost:9999/v1" ∧
    (resolveConfig envOverrides).model = "qwen/qwen3-4b-2507" ∧
    ¬(resolveConfig envOverrides).model = "other-model" ∧
    (resolveConfig envOverrides).apiKey = "lm-studio" ∧
    ¬(resolveConfig envOverrides).apiKey = "other-key" := by
  decide

/-- C1 amended: in the current `ExplainCommit`, base URL, model
identifier and API key are fixed to the hardcoded defaults under every
environment, and only the sampling temperature is environment-dependent
(so the resolved configuration is determined by `EXPLAIN_TEMPERATURE`
alone); in the legacy `main.go` `explainCommit`, the model identifier has
no default and the call fails when `LMSTUDIO_MODEL` is unset. -/
theorem explainCommit_config_resolution (env env2 : String → String) :
    ((resolveConfig env).baseURL = defaultBaseURL ∧
     (resolveConfig env).model = defaultModel ∧
     (resolveConfig env).apiKey = defaultAPIKey ∧
     (resolveConfig env).temperature = resolveTemp env) ∧
    (env "EXPLAIN_TEMPERATURE" = env2 "EXPLAIN_TEMPERATURE" →
      resolveConfig env = resolveConfig env2) ∧
    (env "LMSTUDIO_MODEL" = "" →
      explainCommitMainConfig env = .error "LMSTUDIO_MODEL is not set") := by
  refine ⟨⟨rfl, rfl, rfl, rfl⟩, fun h => ?_, fun h => ?_⟩
  · simp [resolveConfig, resolveTemp, h]
  · simp [explainCommitMainConfig, h]

/-- Witness for `explainCommit_config_resolution` at the empty
environment. -/
theorem explainCommit_config_resolution_witness :
    (envEmpty "EXPLAIN_TEMPERATURE" = envEmpty "EXPLAIN_TEMPERATURE" ∧
      resolveConfig envEmpty = resolveConfig envEmpty) ∧
    (envEmpty "LMSTUDIO_MODEL" = "" ∧
      explainCommitMainConfig envEmpty = .error "LMSTUDIO_MODEL is not set") :=
  ⟨⟨rfl, (explainCommit_config_resolution envEmpty envEmpty).2.1 rfl⟩,
   ⟨rfl, (explainCommit_config_resolution envEmpty envEmpty).2.2 rfl⟩⟩

/-- Bootstrap oracle with the server unreachable and no `lms` CLI. -/
def benvNoCli : BootstrapEnv :=
  { serverRunning := false, cliAvailable := false, modelLoaded := false,
    startOk := false, startOutput := "", loadOk := false, loadOutput := "",
    reachableAfter := fun _ => true }

/-- C2 counterexample: with the server unreachable and the management CLI
absent, the current `StartLMStudio` launches no GUI application process
(its action is `noAction`) and instead returns the install-the-CLI or
start-manually error, regardless of platform — the platform is not even
an input of the function. -/
theorem startLMStudio_no_gui_counterexample :
    StartLMStudio benvNoCli =
      (StartAction.noAction, .error (.cliUnavailable
        "LM Studio is not running and `lms` CLI is not available; please install LM Studio CLI or start the server manually")) :=
  rfl

/-- C2 amended: when the server is unreachable, the current
`StartLMStudio` starts the server headlessly via the management CLI when
the CLI is present, and when it is absent fails with an explicit
install-the-CLI or start-manually error on every platform, launching no
GUI process; the platform-dependent GUI launch (darwin GUI app, windows
start-manually error, `lmstudio` executable elsewhere) belongs to the
superseded variant embedded as `legacyLaunchCommand`. -/
theorem startLMStudio_bootstrap_paths (benv : BootstrapEnv)
    (hdown : benv.serverRunning = false) :
    (benv.cliAvailable = true → (StartLMStudio benv).1 = .headlessCLI) ∧
    (benv.cliAvailable = false →
      StartLMStudio benv = (.noAction, .error (.cliUnavailable
        "LM Studio is not running and `lms` CLI is not available; please install LM Studio CLI or start the server manually"))) ∧
    legacyLaunchCommand "darwin" "" = .ok ("open", ["-a", "LM Studio"]) ∧
    legacyLaunchCommand "windows" "" =
      .error (.startManually "LM Studio is not running; start it manually on Windows") ∧
    legacyLaunchCommand "linux" "" = .ok ("lmstudio", []) := by
  refine ⟨fun hc => ?_, fun hc => ?_, rfl, rfl, rfl⟩
  · cases hs : benv.startOk <;> simp [StartLMStudio, hdown, hc, hs]
  · simp [StartLMStudio, hdown, hc]

/-- Witness for `startLMStudio_bootstrap_paths` at a concrete oracle. -/
theorem startLMStudio_bootstrap_paths_witness :
    benvNoCli.serverRunning = false ∧ benvNoCli.cliAvailable = false ∧
    StartLMStudio benvNoCli = (.noAction, .error (.cliUnavailable
      "LM Studio is not running and `lms` CLI is not available; please install LM Studio CLI or start the server manually")) :=
  ⟨rfl, rfl, (startLMStudio_bootstrap_paths benvNoCli rfl).2.1 rfl⟩

/-- C3: on every invocation whose second argument is `--raw`, `main`
never enters the Explanation Client (so neither the readiness probe nor
the chat request is performed, all network activity living inside that
call), and when the Commit Reader succeeds with text `t` the program
prints `t` verbatim after the fixed banners and exits 0. -/
theorem raw_flag_no_network (args : List String) (gitShow : Except String String)
    (benv : BootstrapEnv) (env : String → String) (http : chatRequest → HttpOutcome)
    (hraw : args[1]? = some "--raw") :
    (∀ s, MainStep.callExplain s ∉ (mainRun args gitShow benv env http).1) ∧
    (∀ t, GetLatestCommit gitShow = .ok t →
      mainRun args gitShow benv env http =
        ([.printLine readingMsg, .printLine rawBanner, .printLine t], 0)) := by
  constructor
  · intro s
    cases hg : GetLatestCommit gitShow with
    | error e => simp [mainRun, hraw, hg]
    | ok t0 => simp [mainRun, hraw, hg]
  · intro t ht
    simp [mainRun, hraw, ht]

/-- Concrete `os.Args` of a `--raw` invocation. -/
def argsRaw : List String := ["explain-commit", "--raw"]

/-- Concrete successful `git show` subprocess outcome. -/
def gitOkCommit : Except String String := .ok "deadbeef improve logging"

/-- Witness for `raw_flag_no_network` on a concrete invocation. -/
theorem raw_flag_no_network_witness :
    argsRaw[1]? = some "--raw" ∧
    GetLatestCommit gitOkCommit = .ok "deadbeef improve logging" ∧
    MainStep.callExplain "deadbeef improve logging" ∉
      (mainRun argsRaw gitOkCommit benvRunning envEmpty httpOkHello).1 ∧
    mainRun argsRaw gitOkCommit benvRunning envEmpty httpOkHello =
      ([.printLine readingMsg, .printLine rawBanner,
        .printLine "deadbeef improve logging"], 0) :=
  ⟨rfl, rfl,
   (raw_flag_no_network argsRaw gitOkCommit benvRunning envEmpty httpOkHello
     rfl).1 "deadbeef improve logging",
   (raw_flag_no_network argsRaw gitOkCommit benvRunning envEmpty httpOkHello
     rfl).2 "deadbeef improve logging" rfl⟩

/-- Helper: `waitForServerAux` succeeds when some poll within the fuel is
reachable. -/
lemma waitForServerAux_ok (reachable : Nat → Bool) (baseURL : String) :
    ∀ fuel k, (∃ j, j < fuel ∧ reachable (k + j) = true) →
      waitForServerAux reachable baseURL k fuel = .ok () := by
  intro fuel
  induction fuel with
  | zero =>
      intro k h
      obtain ⟨j, hj, _⟩ := h
      omega
  | succ n ih =>
      intro k h
      obtain ⟨j, hj, hr⟩ := h
      cases h0 : reachable k with
      | true => simp [waitForServerAux, h0]
      | false =>
          simp only [waitForServerAux, h0, Bool.false_eq_true, if_false]
          apply ih
          have hj0 : j ≠ 0 := by
            intro he
            subst he
            simp only [Nat.add_zero] at hr
            rw [h0] at hr
            exact Bool.false_ne_true hr
          refine ⟨j - 1, by omega, ?_⟩
          have harith : k + 1 + (j - 1) = k + j := by omega
          rw [harith]
          exact hr

/-- Helper: `waitForServerAux` times out when no poll within the fuel is
reachable. -/
lemma waitForServerAux_timeout (reachable : Nat → Bool) (baseURL : String) :
    ∀ fuel k, (∀ j, j < fuel → reachable (k + j) = false) →
      waitForServerAux reachable baseURL k fuel =
        .error (.timeoutError ("timed out waiting for LM Studio server at " ++ baseURL)) := by
  intro fuel
  induction fuel with
  | zero => intro k _; rfl
  | succ n ih =>
      intro k h
      have h0 : reachable k = false := by
        have := h 0 (Nat.succ_pos n)
        simpa using this
      simp only [waitForServerAux, h0, Bool.false_eq_true, if_false]
      apply ih
      intro j hj
      have harith : k + 1 + j = k + (j + 1) := by omega
      rw [harith]
      exact h (j + 1) (by omega)

/-- Helper: `waitForServerAux` always terminates in one of exactly two
outcomes. -/
lemma waitForServerAux_total (reachable : Nat → Bool) (baseURL : String) :
    ∀ fuel k,
      waitForServerAux reachable baseURL k fuel = .ok () ∨
      waitForServerAux reachable baseURL k fuel =
        .error (.timeoutError ("timed out waiting for LM Studio server at " ++ baseURL)) := by
  intro fuel
  induction fuel with
  | zero => intro k; exact Or.inr rfl
  | succ n ih =>
      intro k
      cases h0 : reachable k with
      | true => exact Or.inl (by simp [waitForServerAux, h0])
      | false =>
          simp only [waitForServerAux, h0, Bool.false_eq_true, if_false]
          exact ih (k + 1)

/-- C8: the readiness wait after a start command is poll-bounded (the
30-second deadline with 1-second sleeps gives `readyTimeoutPolls = 30`
probes): it always terminates with success or the timeout error, succeeds
whenever some poll within the bound sees the server reachable, returns the
`TimeoutError` when none does, and `StartLMStudio` propagates that
timeout after a headless start that never becomes reachable. -/
theorem waitForServer_bounded_polling (reachable : Nat → Bool) (benv : BootstrapEnv) :
    (waitForServer reachable defaultBaseURL readyTimeoutPolls = .ok () ∨
     waitForServer reachable defaultBaseURL readyTimeoutPolls =
       .error (.timeoutError ("timed out waiting for LM Studio server at " ++ defaultBaseURL))) ∧
    ((∃ k, k < readyTimeoutPolls ∧ reachable k = true) →
      waitForServer reachable defaultBaseURL readyTimeoutPolls = .ok ()) ∧
    ((∀ k, k < readyTimeoutPolls → reachable k = false) →
      waitForServer reachable defaultBaseURL readyTimeoutPolls =
        .error (.timeoutError ("timed out waiting for LM Studio server at " ++ defaultBaseURL))) ∧
    (benv.serverRunning = false → benv.cliAvailable = true → benv.startOk = true →
      (∀ k, k < readyTimeoutPolls → benv.reachableAfter k = false) →
      StartLMStudio benv =
        (.headlessCLI, .error (.timeoutError
          ("timed out waiting for LM Studio server at " ++ defaultBaseURL)))) := by
  refine ⟨waitForServerAux_total reachable defaultBaseURL readyTimeoutPolls 0,
    fun h => ?_, fun h => ?_, fun h1 h2 h3 h4 => ?_⟩
  · obtain ⟨k, hk, hr⟩ := h
    apply waitForServerAux_ok
    exact ⟨k, hk, by simpa using hr⟩
  · apply waitForServerAux_timeout
    intro j hj
    simpa using h j hj
  · have hw : waitForServer benv.reachableAfter defaultBaseURL readyTimeoutPolls =
        .error (.timeoutError ("timed out waiting for LM Studio server at " ++ defaultBaseURL)) := by
      apply waitForServerAux_timeout
      intro j hj
      simpa using h4 j hj
    simp [StartLMStudio, h1, h2, h3, hw]

/-- Reachability trace that flips to reachable at poll 2. -/
def reachAtTwo : Nat → Bool := fun k => k == 2

/-- Reachability trace that never becomes reachable. -/
def reachNever : Nat → Bool := fun _ => false

/-- Bootstrap oracle: server down, CLI present, start succeeds, but the
server never becomes reachable. -/
def benvStartTimeout : BootstrapEnv :=
  { serverRunning := false, cliAvailable := true, modelLoaded := false,
    startOk := true, startOutput := "", loadOk := true, loadOutput := "",
    reachableAfter := reachNever }

/-- Witness for `waitForServer_bounded_polling` at concrete traces. -/
theorem waitForServer_bounded_polling_witness :
    (2 < readyTimeoutPolls ∧ reachAtTwo 2 = true ∧
      waitForServer reachAtTwo defaultBaseURL readyTimeoutPolls = .ok ()) ∧
    waitForServer reachNever defaultBaseURL readyTimeoutPolls =
      .error (.timeoutError ("timed out waiting for LM Studio server at " ++ defaultBaseURL)) ∧
    StartLMStudio benvStartTimeout =
      (.headlessCLI, .error (.timeoutError
        ("timed out waiting for LM Studio server at " ++ defaultBaseURL))) :=
  ⟨⟨by decide, by decide,
    (waitForServer_bounded_polling reachAtTwo benvStartTimeout).2.1
      ⟨2, by decide, by decide⟩⟩,
   (waitForServer_bounded_polling reachNever benvStartTimeout).2.2.1
     (fun _ _ => rfl),
   (waitForServer_bounded_polling reachNever benvStartTimeout).2.2.2
     rfl rfl rfl (fun _ _ => rfl)⟩

end ExplainCommitRepo
